import Mathlib

/-!
Shallow embedding of the gistit serverless validation helpers
(src/services/functions/src/checks.ts) and proofs about them.

JavaScript numbers are embedded as `Int` (all concrete values in the code
and config are integers); an absent (`undefined`/`null`) argument is `none`,
and JS truthiness of a number value is `v ≠ 0`.  The module-level config
`defs` is imported from defs.json, which is not part of the source tree;
it is embedded as an explicit record parameter `Defs`, faithful to the
spec's description of BoundsConfig.  Thrown JS errors become `Except.error`
carrying the literal message string; `firebase-functions` logger calls
become an explicit list of emitted event tags.
-/

namespace Gistit

/-- The `RangeObj` interface of checks.ts: `{ MIN: number; MAX: number }`. -/
structure RangeObj where
  MIN : Int
  MAX : Int
deriving DecidableEq, Repr

/-- Modelled from the spec: the static BoundsConfig record loaded from
defs.json (the file itself is absent from the source tree).  Field names
follow the spec; the two single-character origin tags are the spec's
`HASH_P2P_PREFIX` and `HASH_SERVER_PREFIX`, embedded here as `Char` fields
named `HASH_P2P_CHAR` and `HASH_SERVER_CHAR`. -/
structure Defs where
  HASH_LENGTH : Nat
  HASH_P2P_CHAR : Char
  HASH_SERVER_CHAR : Char
  AUTHOR_CHAR_LENGTH : RangeObj
  DESCRIPTION_CHAR_LENGTH : RangeObj
  FILE_SIZE : RangeObj
deriving DecidableEq, Repr

/-- `paramValueInRange` of checks.ts, verbatim:
`if (value && value > obj.MAX && value < obj.MIN) return false; return true;`
A `none` value (JS `undefined`) is falsy, as is the number `0`. -/
def paramValueInRange (obj : RangeObj) (value : Option Int) : Bool :=
  match value with
  | none => true
  | some v => if v ≠ 0 ∧ v > obj.MAX ∧ v < obj.MIN then false else true

/-- The classification events emitted by the `switch (hash[0])` in
`checkHash`: `"p2p"` for the p2p origin tag, `"server"` for the server
origin tag, nothing otherwise (also nothing when the string is empty,
since `hash[0]` is then `undefined`). -/
def hashEvents (d : Defs) (hash : String) : List String :=
  match hash.data with
  | [] => []
  | c :: _ =>
    if c = d.HASH_P2P_CHAR then ["p2p"]
    else if c = d.HASH_SERVER_CHAR then ["server"]
    else []

/-- `checkHash` of checks.ts: on matching length, log the origin
classification and succeed; otherwise throw. -/
def checkHash (d : Defs) (hash : String) : Except String (List String) :=
  if hash.length = d.HASH_LENGTH then Except.ok (hashEvents d hash)
  else Except.error "Invalid gistit hash format"

/-- `checkParamsCharLength` of checks.ts: `author?.length` is `none` when
`author` is absent, likewise for `description`. -/
def checkParamsCharLength (d : Defs) (author description : Option String) :
    Except String Unit :=
  if paramValueInRange d.AUTHOR_CHAR_LENGTH (author.map fun a => (a.length : Int)) &&
      paramValueInRange d.DESCRIPTION_CHAR_LENGTH (description.map fun a => (a.length : Int))
  then Except.ok ()
  else Except.error "Invalid author, description or secret character length"

/-- `checkFileSize` of checks.ts. -/
def checkFileSize (d : Defs) (size : Int) : Except String Unit :=
  if paramValueInRange d.FILE_SIZE (some size) then Except.ok ()
  else Except.error "File size not allowed"

/-! State-passing versions of the four validators, used to state purity and
config-immutability: the module state holds the loaded config and the
logger's output so far, and each validator is re-translated against it. -/

/-- The observable module state: the config record imported at module load,
and the log lines written to the `firebase-functions` logger so far. -/
structure ModuleState where
  defs : Defs
  log : List String
deriving DecidableEq, Repr

/-- `checkHash` translated against the explicit module state. -/
def checkHashS (s : ModuleState) (hash : String) : Except String ModuleState :=
  if hash.length = s.defs.HASH_LENGTH then
    match hash.data with
    | [] => Except.ok s
    | c :: _ =>
      if c = s.defs.HASH_P2P_CHAR then Except.ok ⟨s.defs, s.log ++ ["p2p"]⟩
      else if c = s.defs.HASH_SERVER_CHAR then Except.ok ⟨s.defs, s.log ++ ["server"]⟩
      else Except.ok s
  else Except.error "Invalid gistit hash format"

/-- `paramValueInRange` translated against the explicit module state. -/
def paramValueInRangeS (s : ModuleState) (obj : RangeObj) (value : Option Int) :
    Bool × ModuleState :=
  match value with
  | none => (true, s)
  | some v => if v ≠ 0 ∧ v > obj.MAX ∧ v < obj.MIN then (false, s) else (true, s)

/-- `checkParamsCharLength` translated against the explicit module state. -/
def checkParamsCharLengthS (s : ModuleState) (author description : Option String) :
    Except String ModuleState :=
  let r1 := paramValueInRangeS s s.defs.AUTHOR_CHAR_LENGTH
    (author.map fun a => (a.length : Int))
  let r2 := paramValueInRangeS r1.2 r1.2.defs.DESCRIPTION_CHAR_LENGTH
    (description.map fun a => (a.length : Int))
  if r1.1 && r2.1 then Except.ok r2.2
  else Except.error "Invalid author, description or secret character length"

/-- `checkFileSize` translated against the explicit module state. -/
def checkFileSizeS (s : ModuleState) (size : Int) : Except String ModuleState :=
  let r := paramValueInRangeS s s.defs.FILE_SIZE (some size)
  if r.1 then Except.ok r.2
  else Except.error "File size not allowed"

/-! Shared helper lemmas. -/

/-- For a range with `MIN ≤ MAX` the rejecting conjunction of
`paramValueInRange` is unsatisfiable, so the predicate is constantly true. -/
theorem paramValueInRange_true_of_min_le_max (obj : RangeObj)
    (h : obj.MIN ≤ obj.MAX) (value : Option Int) :
    paramValueInRange obj value = true := by
  cases value with
  | none => rfl
  | some v =>
    simp only [paramValueInRange]
    split_ifs with hc
    · obtain ⟨-, h1, h2⟩ := hc
      omega
    · rfl

/-- The state-passing range check returns the pure check's answer and the
state unchanged. -/
theorem paramValueInRangeS_eq (s : ModuleState) (obj : RangeObj)
    (value : Option Int) :
    paramValueInRangeS s obj value = (paramValueInRange obj value, s) := by
  cases value with
  | none => rfl
  | some v =>
    unfold paramValueInRangeS paramValueInRange
    dsimp only
    split_ifs <;> rfl

/-! Claim theorems. -/

/-- C1: `paramValueInRange(range, value)` returns false only when `value` is
present and truthy and `value > MAX` and `value < MIN` hold simultaneously;
in every other case, including absent values, it returns true. -/
theorem paramValueInRange_false_iff (obj : RangeObj) (value : Option Int) :
    paramValueInRange obj value = false ↔
      ∃ v, value = some v ∧ v ≠ 0 ∧ v > obj.MAX ∧ v < obj.MIN := by
  cases value with
  | none => simp [paramValueInRange]
  | some v =>
    simp only [paramValueInRange]
    split_ifs with hc
    · simpa using hc
    · simpa using hc

/-- C2: for every range with `MIN ≤ MAX` and every value, present or absent,
`paramValueInRange` returns true, including values far outside the range. -/
theorem paramValueInRange_always_true (obj : RangeObj)
    (h : obj.MIN ≤ obj.MAX) (value : Option Int) :
    paramValueInRange obj value = true :=
  paramValueInRange_true_of_min_le_max obj h value

/-- Witness for C2 at the spec's concrete example:
`paramValueInRange({MIN: 1, MAX: 10}, 1000) = true`. -/
theorem paramValueInRange_always_true_witness :
    (1 : Int) ≤ 10 ∧ paramValueInRange ⟨1, 10⟩ (some 1000) = true :=
  ⟨by decide, paramValueInRange_always_true ⟨1, 10⟩ (by decide) (some 1000)⟩

/-- C3: `checkHash h` throws the invalid-hash-format error iff
`length h ≠ HASH_LENGTH`, and when the length matches it succeeds. -/
theorem checkHash_throws_iff (d : Defs) (h : String) :
    (checkHash d h = Except.error "Invalid gistit hash format" ↔
      h.length ≠ d.HASH_LENGTH) ∧
    (h.length = d.HASH_LENGTH → checkHash d h = Except.ok (hashEvents d h)) := by
  unfold checkHash
  split_ifs with hl <;> simp [hl]

/-- Witness for C3: under a config with HASH_LENGTH = 3, the two-character
hash `"ab"` throws the invalid-hash-format error. -/
theorem checkHash_throws_iff_witness :
    checkHash ⟨3, 'x', 'y', ⟨1, 10⟩, ⟨1, 10⟩, ⟨1, 10⟩⟩ "ab" =
      Except.error "Invalid gistit hash format" :=
  (checkHash_throws_iff ⟨3, 'x', 'y', ⟨1, 10⟩, ⟨1, 10⟩, ⟨1, 10⟩⟩ "ab").1.mpr
    (by decide)

/-- C4: on a hash of the configured length whose first character is the p2p
tag, `checkHash` emits exactly the event `"p2p"`; on the server tag, exactly
`"server"`; on any other first character it emits no event and no error
(the two configured tags being distinct characters). -/
theorem checkHash_classification (d : Defs)
    (hp : d.HASH_P2P_CHAR ≠ d.HASH_SERVER_CHAR) (h : String)
    (hl : h.length = d.HASH_LENGTH) (c : Char) (cs : List Char)
    (hd : h.data = c :: cs) :
    (c = d.HASH_P2P_CHAR → checkHash d h = Except.ok ["p2p"]) ∧
    (c = d.HASH_SERVER_CHAR → checkHash d h = Except.ok ["server"]) ∧
    (c ≠ d.HASH_P2P_CHAR → c ≠ d.HASH_SERVER_CHAR →
      checkHash d h = Except.ok []) := by
  unfold checkHash hashEvents
  rw [hd]
  refine ⟨fun h1 => ?_, fun h2 => ?_, fun h1 h2 => ?_⟩
  · simp [hl, h1]
  · simp [hl, h2, Ne.symm hp]
  · simp [hl, h1, h2]

/-- Witness for C4: with config length 3, p2p tag `x`, server tag `y`,
the hash `"xab"` is classified as p2p. -/
theorem checkHash_classification_witness :
    checkHash ⟨3, 'x', 'y', ⟨1, 10⟩, ⟨1, 10⟩, ⟨1, 10⟩⟩ "xab" = Except.ok ["p2p"] :=
  (checkHash_classification ⟨3, 'x', 'y', ⟨1, 10⟩, ⟨1, 10⟩, ⟨1, 10⟩⟩
    (by decide) "xab" (by decide) 'x' ['a', 'b'] (by decide)).1 rfl

/-- C5: for a config whose FILE_SIZE range satisfies `MIN ≤ MAX` (the spec
describes an inclusive `{MIN, MAX}` window), `checkFileSize` never throws,
for any size. -/
theorem checkFileSize_never_throws (d : Defs)
    (h : d.FILE_SIZE.MIN ≤ d.FILE_SIZE.MAX) (size : Int) :
    checkFileSize d size = Except.ok () := by
  unfold checkFileSize
  rw [paramValueInRange_true_of_min_le_max d.FILE_SIZE h (some size)]
  rfl

/-- Witness for C5 at a concrete config with FILE_SIZE = {MIN: 1, MAX: 10}
and size 1000. -/
theorem checkFileSize_never_throws_witness :
    (1 : Int) ≤ 10 ∧
    checkFileSize ⟨3, 'x', 'y', ⟨1, 10⟩, ⟨1, 10⟩, ⟨1, 10⟩⟩ 1000 = Except.ok () :=
  ⟨by decide,
    checkFileSize_never_throws ⟨3, 'x', 'y', ⟨1, 10⟩, ⟨1, 10⟩, ⟨1, 10⟩⟩ (by decide) 1000⟩

/-- C6: with both author and description absent, `checkParamsCharLength`
does not throw, for every config. -/
theorem checkParamsCharLength_absent_ok (d : Defs) :
    checkParamsCharLength d none none = Except.ok () := rfl

/-- C7: `checkParamsCharLength` throws the invalid-length error iff not both
the author's length and the description's length pass `paramValueInRange`
for their configured ranges; when both pass, it succeeds. -/
theorem checkParamsCharLength_error_iff (d : Defs)
    (author description : Option String) :
    (checkParamsCharLength d author description =
        Except.error "Invalid author, description or secret character length" ↔
      ¬(paramValueInRange d.AUTHOR_CHAR_LENGTH
          (author.map fun a => (a.length : Int)) = true ∧
        paramValueInRange d.DESCRIPTION_CHAR_LENGTH
          (description.map fun a => (a.length : Int)) = true)) ∧
    ((paramValueInRange d.AUTHOR_CHAR_LENGTH
          (author.map fun a => (a.length : Int)) = true ∧
        paramValueInRange d.DESCRIPTION_CHAR_LENGTH
          (description.map fun a => (a.length : Int)) = true) →
      checkParamsCharLength d author description = Except.ok ()) := by
  unfold checkParamsCharLength
  split_ifs with hb
  · simp only [Bool.and_eq_true] at hb
    simp [hb]
  · simp only [Bool.and_eq_true] at hb
    simp [hb]

/-- Witness for C7: both lengths pass the range check at a concrete config
and concrete present arguments, so the call succeeds. -/
theorem checkParamsCharLength_error_iff_witness :
    checkParamsCharLength ⟨3, 'x', 'y', ⟨1, 10⟩, ⟨1, 10⟩, ⟨1, 10⟩⟩
      (some "ab") (some "cd") = Except.ok () :=
  (checkParamsCharLength_error_iff ⟨3, 'x', 'y', ⟨1, 10⟩, ⟨1, 10⟩, ⟨1, 10⟩⟩
    (some "ab") (some "cd")).2 ⟨by decide, by decide⟩

/-- C8: each validator, run against the explicit module state, leaves the
loaded config unchanged and produces a result that is a pure function of
the config and the call's inputs: the state-passing translations agree with
the pure functions, appending only the emitted events to the log. -/
theorem validators_pure (s : ModuleState) (hash : String)
    (author description : Option String) (size : Int)
    (obj : RangeObj) (value : Option Int) :
    checkHashS s hash =
      (checkHash s.defs hash).map (fun evs => ⟨s.defs, s.log ++ evs⟩) ∧
    checkParamsCharLengthS s author description =
      (checkParamsCharLength s.defs author description).map (fun _ => s) ∧
    checkFileSizeS s size = (checkFileSize s.defs size).map (fun _ => s) ∧
    paramValueInRangeS s obj value = (paramValueInRange obj value, s) := by
  obtain ⟨d, log⟩ := s
  refine ⟨?_, ?_, ?_, paramValueInRangeS_eq ⟨d, log⟩ obj value⟩
  · unfold checkHashS checkHash hashEvents
    split_ifs with hl
    · cases hd : hash.data with
      | nil => simp [Except.map]
      | cons c cs =>
        dsimp only
        split_ifs with h1 h2 <;> simp [Except.map]
    · rfl
  · unfold checkParamsCharLengthS checkParamsCharLength
    simp only [paramValueInRangeS_eq]
    dsimp only
    split_ifs <;> rfl
  · unfold checkFileSizeS checkFileSize
    simp only [paramValueInRangeS_eq]
    dsimp only
    split_ifs <;> rfl

/-- C9: for a degenerate range with `MAX < v < MIN` and truthy `v`, the
rejecting branch of `paramValueInRange` is reachable, and `checkFileSize`
throws under any config carrying such a FILE_SIZE range. -/
theorem paramValueInRange_degenerate_rejects (obj : RangeObj) (v : Int)
    (hv : v ≠ 0) (h1 : obj.MAX < v) (h2 : v < obj.MIN) :
    paramValueInRange obj (some v) = false ∧
    ∀ d : Defs, d.FILE_SIZE = obj →
      checkFileSize d v = Except.error "File size not allowed" := by
  have hr : paramValueInRange obj (some v) = false := by
    simp [paramValueInRange, hv, h1, h2]
  refine ⟨hr, fun d hd => ?_⟩
  unfold checkFileSize
  rw [hd, hr]
  rfl

/-- Witness for C9 at the degenerate range {MIN: 10, MAX: 1} and v = 5. -/
theorem paramValueInRange_degenerate_rejects_witness :
    paramValueInRange ⟨10, 1⟩ (some 5) = false ∧
    checkFileSize ⟨3, 'x', 'y', ⟨1, 10⟩, ⟨1, 10⟩, ⟨10, 1⟩⟩ 5 =
      Except.error "File size not allowed" := by
  have h := paramValueInRange_degenerate_rejects ⟨10, 1⟩ 5
    (by decide) (by decide) (by decide)
  exact ⟨h.1, h.2 ⟨3, 'x', 'y', ⟨1, 10⟩, ⟨1, 10⟩, ⟨10, 1⟩⟩ rfl⟩

/-- C10: the guard tests JS truthiness, so the value 0 is treated as absent:
for every range, including degenerate ones, `paramValueInRange(range, 0)`
returns true. -/
theorem paramValueInRange_zero_true (obj : RangeObj) :
    paramValueInRange obj (some 0) = true := by
  simp [paramValueInRange]

end Gistit
